import Mathlib

/-!
Verification development for `files_finder_by_date.py`.

The Python program walks a directory tree, filters files by extension and by a
date window on the three stat timestamps, appends one line per match to a
primary report file, and optionally sorts the matches and appends two further
reports.  We embed the decision logic shallowly:

* Python strings that only carry code points (extension strings, date strings)
  are `PyStr := List Nat` (one natural per code point);
* timestamps (`os.path.get{m,c,a}time`, `datetime.timestamp()`) are integers
  counting microseconds since the epoch - the resolution `datetime` carries;
* `datetime.datetime` values are a record of an absolute day number (days since
  the Unix epoch, timezone taken as UTC) plus time-of-day fields, which makes
  `timedelta(days=7)` subtraction and `.replace(...)` exact;
* the file system of report files is three `Option String` contents
  (`none` = the file does not exist);
* Python exceptions (`ValueError` from `strptime`, the `AttributeError` raised
  when `self._extensions` was never assigned) are modelled with `Except`.
-/

namespace FilesFinder

/-- A Python string viewed as its list of code points. -/
abbrev PyStr := List Nat

/-- Model of Python `str.lower` on one code point (ASCII case mapping,
which is all the program's extension handling relies on). -/
def lowerChar (c : Nat) : Nat := if 65 ≤ c ∧ c ≤ 90 then c + 32 else c

/-- Model of Python `str.lower`. -/
def lowerStr (s : PyStr) : PyStr := s.map lowerChar

/-- Model of `ext.startswith('.')` (code point 46 is the dot). -/
def startsWithDot : PyStr → Bool
  | [] => false
  | c :: _ => c == 46

/-- One extension as stored by `__init__` (line 107-109 of the source):
`('.' if not ext.startswith('.') else '') + ext.lower()`. -/
def normalizeExt (s : PyStr) : PyStr :=
  if startsWithDot s then lowerStr s else 46 :: lowerStr s

/-- The `_extensions` attribute produced by `__init__` lines 106-109.
`none` means the attribute was never assigned: the guard `if extensions:` is
false for `None` and for an empty collection, and only a truthy argument makes
the assignment happen. -/
def mkExtensions : Option (List PyStr) → Option (List PyStr)
  | none => none
  | some l => if l.isEmpty then none else some (l.map normalizeExt)

/-- Model of a `datetime.datetime` value: absolute day number (days since
1970-01-01, UTC) plus time-of-day fields.  `timedelta(days=7)` subtraction
shifts `day`; `.replace(...)` overwrites the named fields. -/
structure PyDateTime where
  day : Int
  hour : Nat
  minute : Nat
  second : Nat
  microsecond : Nat
deriving DecidableEq, Repr

/-- Model of `datetime.timestamp()`, rescaled to integral microseconds since
the epoch (the resolution a `datetime` value carries), so that all timestamp
comparisons stay exact. -/
def PyDateTime.timestamp (d : PyDateTime) : Int :=
  d.day * 86400000000 + (d.hour : Int) * 3600000000 +
    (d.minute : Int) * 60000000 + (d.second : Int) * 1000000 +
    (d.microsecond : Int)

/-- Decimal digit value of a code point, if it is one. -/
def digitVal (c : Nat) : Option Nat :=
  if 48 ≤ c ∧ c ≤ 57 then some (c - 48) else none

/-- Read four digits. -/
def parse4 : PyStr → Option (Nat × PyStr)
  | a :: b :: c :: d :: rest => do
      let x ← digitVal a
      let y ← digitVal b
      let z ← digitVal c
      let w ← digitVal d
      some (1000 * x + 100 * y + 10 * z + w, rest)
  | _ => none

/-- Read two digits. -/
def parse2 : PyStr → Option (Nat × PyStr)
  | a :: b :: rest => do
      let x ← digitVal a
      let y ← digitVal b
      some (10 * x + y, rest)
  | _ => none

/-- Expect one literal code point. -/
def expectChar (c : Nat) : PyStr → Option PyStr
  | d :: rest => if c == d then some rest else none
  | [] => none

/-- Gregorian leap-year rule. -/
def isLeap (y : Nat) : Bool := (y % 4 == 0 && y % 100 != 0) || y % 400 == 0

/-- Length of a month. -/
def daysInMonth (y m : Nat) : Nat :=
  if m == 2 then (if isLeap y then 29 else 28)
  else if m == 4 || m == 6 || m == 9 || m == 11 then 30
  else 31

/-- Days in all years before year `y` (proleptic Gregorian, year 1 onwards). -/
def daysBeforeYear (y : Nat) : Int :=
  365 * ((y : Int) - 1) + ((y - 1) / 4 : Nat) - ((y - 1) / 100 : Nat) +
    ((y - 1) / 400 : Nat)

/-- Days in the months of year `y` strictly before month `m`. -/
def daysBeforeMonth (y m : Nat) : Nat :=
  (List.range (m - 1)).foldl (fun acc i => acc + daysInMonth y (i + 1)) 0

/-- Civil date to days since 1970-01-01 (719162 days separate 0001-01-01
from the epoch). -/
def toEpochDay (y m d : Nat) : Int :=
  daysBeforeYear y + (daysBeforeMonth y m : Int) + ((d : Int) - 1) - 719162

/-- Modelled from the Python standard library `datetime.datetime.strptime`
with the two formats the program uses (`%Y-%m-%d`, line 94, and
`%Y-%m-%d %H:%M:%S` when `include_time` is set).  Simplified to the
zero-padded fixed-width form the program documents (`YYYY-MM-DD`), with
calendar range validation; `none` models the `ValueError` raised on input
that does not match the format. -/
def strptime (s : PyStr) (include_time : Bool) : Option PyDateTime := do
  let (y, s1) ← parse4 s
  let s2 ← expectChar 45 s1
  let (m, s3) ← parse2 s2
  let s4 ← expectChar 45 s3
  let (d, s5) ← parse2 s4
  if y < 1 ∨ m < 1 ∨ m > 12 ∨ d < 1 ∨ d > daysInMonth y m then none
  else
    if include_time then do
      let s6 ← expectChar 32 s5
      let (hh, s7) ← parse2 s6
      let s8 ← expectChar 58 s7
      let (mm, s9) ← parse2 s8
      let s10 ← expectChar 58 s9
      let (ss, s11) ← parse2 s10
      if hh > 23 ∨ mm > 59 ∨ ss > 59 ∨ ¬ s11.isEmpty then none
      else some { day := toEpochDay y m d, hour := hh, minute := mm,
                  second := ss, microsecond := 0 }
    else
      if ¬ s5.isEmpty then none
      else some { day := toEpochDay y m d, hour := 0, minute := 0,
                  second := 0, microsecond := 0 }

/-- Python truthiness of an optional string argument (`if start_date:`,
line 96): `None` and the empty string are falsy. -/
def truthy : Option PyStr → Bool
  | none => false
  | some s => !s.isEmpty

/-- The instance state `__init__` (lines 83-109) leaves behind. -/
structure Config where
  start_date : PyDateTime
  end_date : PyDateTime
  sort_info : Bool
  extensions : Option (List PyStr)
deriving DecidableEq, Repr

/-- `FilesFinderByDate.__init__` (lines 83-109).  `now` stands for
`datetime.datetime.now()`.  On success it returns the stored configuration;
an `Except.error` models the `ValueError` that `strptime` raises on an
unparseable date string. -/
def mkFinder (start_date end_date : Option PyStr) (include_time : Bool)
    (extensions : Option (List PyStr)) (sort_info : Bool) (now : PyDateTime) :
    Except String Config :=
  let sdRes : Except String PyDateTime :=
    if truthy start_date then
      match strptime (start_date.getD []) include_time with
      | some d => .ok d
      | none => .error "ValueError: start_date"
    else
      .ok { day := now.day - 7, hour := 0, minute := 0, second := 0,
            microsecond := 0 }
  match sdRes with
  | .error e => .error e
  | .ok sd =>
    let edRes : Except String PyDateTime :=
      if truthy end_date then
        match strptime (end_date.getD []) include_time with
        | some d => .ok d
        | none => .error "ValueError: end_date"
      else .ok now
    match edRes with
    | .error e => .error e
    | .ok ed0 =>
      let ed := if include_time then ed0
                else { ed0 with hour := 23, minute := 59, second := 59 }
      .ok { start_date := sd, end_date := ed, sort_info := sort_info,
            extensions := mkExtensions extensions }

/-- One tuple `(file_path, mtime, ctime, atime)` as appended to `files_list`
by `_walker` line 136. -/
structure Record where
  path : String
  mtime : Int
  ctime : Int
  atime : Int
deriving DecidableEq, Repr

/-- One candidate file as the walk sees it: its path, whether it still exists
at inspection time (line 120), its `splitext`-extension already lowercased
(line 125), and its three stat timestamps (lines 126-128). -/
structure FileEntry where
  path : String
  exists_now : Bool
  ext : PyStr
  mtime : Int
  ctime : Int
  atime : Int
deriving DecidableEq, Repr

/-- The tuple the walk stores for a matched file (line 136). -/
def FileEntry.toRecord (e : FileEntry) : Record :=
  { path := e.path, mtime := e.mtime, ctime := e.ctime, atime := e.atime }

/-- Stand-in for the standard library `time.ctime` rendering of a timestamp:
an injective human-readable placeholder (the report-level claims depend only
on which timestamp is rendered where, not on the exact calendar text). -/
def pyCtime (t : Int) : String := "time<" ++ toString t ++ ">"

/-- One line of the primary report, `_walker` lines 138-141. -/
def renderLine (r : Record) : String :=
  "file=" ++ r.path ++ " | mtime=" ++ pyCtime r.mtime ++ " | ctime=" ++
    pyCtime r.ctime ++ " | atime=" ++ pyCtime r.atime ++ "\n"

/-- The date-window test of `_walker` lines 131-133. -/
def dateMatches (lo hi : Int) (e : FileEntry) : Bool :=
  (decide (lo < e.mtime) && decide (e.mtime < hi)) ||
  (decide (lo < e.ctime) && decide (e.ctime < hi)) ||
  (decide (lo < e.atime) && decide (e.atime < hi))

/-- Mutable state of one `_walker` run: the counter, the in-memory tuple
list, and the lines appended so far to the primary report file. -/
structure WalkState where
  files_founded : Nat
  files_list : List Record
  report : List String
deriving DecidableEq, Repr

/-- State change of `_walker` lines 134-141 when a file matches. -/
def recordMatch (cfg : Config) (st : WalkState) (e : FileEntry) : WalkState :=
  { files_founded := st.files_founded + 1,
    files_list :=
      if cfg.sort_info then st.files_list ++ [e.toRecord] else st.files_list,
    report := st.report ++ [renderLine e.toRecord] }

/-- The body of the inner loop of `_walker` (lines 118-141) for one file.
The checks run in source order: existence (line 120), then the extension
filter (line 129) - reading `self._extensions` raises `AttributeError` when
`__init__` never assigned it - then the date window (lines 131-133). -/
def stepFile (cfg : Config) (lo hi : Int) (st : WalkState) (e : FileEntry) :
    Except String WalkState :=
  if e.exists_now = false then .ok st
  else
    match cfg.extensions with
    | none => .error "AttributeError: _extensions"
    | some exts =>
      if !exts.isEmpty && !(decide (e.ext ∈ exts)) then .ok st
      else if dateMatches lo hi e then .ok (recordMatch cfg st e) else .ok st

/-- The loop of `_walker` over every enumerated candidate file.  On an
exception the state reached so far is returned together with the error:
report lines already appended to the file stay written. -/
def walkFiles (cfg : Config) (lo hi : Int) :
    List FileEntry → WalkState → WalkState × Option String
  | [], st => (st, none)
  | e :: es, st =>
    match stepFile cfg lo hi st e with
    | .error m => (st, some m)
    | .ok st' => walkFiles cfg lo hi es st'

/-- `_walker` (lines 111-142): runs the loop from the empty state with the
window converted by `.timestamp()` (lines 113-114), and on success returns
`files_founded` and `files_list if self._sort_info else None` (line 142),
alongside the report lines it appended and the exception, if any. -/
def walker (cfg : Config) (entries : List FileEntry) :
    (Nat × Option (List Record)) × List String × Option String :=
  let res := walkFiles cfg cfg.start_date.timestamp cfg.end_date.timestamp
    entries { files_founded := 0, files_list := [], report := [] }
  ((res.1.files_founded,
    if cfg.sort_info then some res.1.files_list else none),
   res.1.report, res.2)

/-- The sort key of `_sorter` line 148, `itemgetter(2, 1, 3, 0)` on the tuple
`(path, mtime, ctime, atime)`: the lexicographic ordering on
`(ctime, mtime, atime, path)`. -/
def sortKey (r : Record) : Lex (Int × Lex (Int × Lex (Int × String))) :=
  toLex (r.ctime, toLex (r.mtime, toLex (r.atime, r.path)))

/-- Boolean comparison realising Python list.sort with that key. -/
def recordLE (r s : Record) : Bool := decide (sortKey r ≤ sortKey s)

/-- `files_list.sort(key=itemgetter(2, 1, 3, 0))`, line 148. -/
def sortFilesList (l : List Record) : List Record := l.mergeSort recordLE

/-- The multi-line list rendering of `_sorter` lines 152-155. -/
def sorterListLine (r : Record) : String :=
  "file: " ++ r.path ++ "\ncreated: " ++ pyCtime r.ctime ++ "\nmodified: " ++
    pyCtime r.mtime ++ "\naccessed: " ++ pyCtime r.atime ++ "\n"

/-- The single-line table rendering of `_sorter` lines 156-159.  Note the
source passes `i[2]` (the creation time) to the `mtime=` column and `i[1]`
(the modification time) to the `ctime=` column. -/
def sorterTableLine (r : Record) : String :=
  "file=" ++ r.path ++ "   |   mtime=" ++ pyCtime r.ctime ++ "   |   ctime=" ++
    pyCtime r.mtime ++ "   |   atime=" ++ pyCtime r.atime

/-- `_sorter` (lines 144-165): sorts the tuples, renders both forms, and
appends the joined blocks to the two sorted report files, whose prior
contents are the two string arguments. -/
def sorter (list_file table_file : String) (files_list : List Record) :
    String × String :=
  let sorted := sortFilesList files_list
  (list_file ++ String.intercalate "\n" (sorted.map sorterListLine) ++ "\n\n",
   table_file ++ String.intercalate "\n" (sorted.map sorterTableLine))

/-- Rendering of a `datetime` value inside the run header (an injective
placeholder for Python str(datetime); the claims do not depend on the exact
calendar text). -/
def showDT (d : PyDateTime) : String :=
  toString d.day ++ "d " ++ toString d.hour ++ ":" ++ toString d.minute ++
    ":" ++ toString d.second ++ "." ++ toString d.microsecond

/-- The column legend line of the run header (lines 182-183), 66 characters
ending in a newline. -/
def legend : String :=
  "     file     |     modified     |     created     |     accessed\n"

/-- `starting_text` of `find_files` lines 179-183. -/
def startingText (scriptStart sd ed : PyDateTime) : String :=
  "script started at: " ++ showDT scriptStart ++ "\n" ++
    "start date: " ++ showDT sd ++ "\n" ++
    "end date: " ++ showDT ed ++ "\n" ++ legend

/-- The header write applied to one report file (lines 184-189 and
198-209): create the file with the text when it does not exist, otherwise
append three newlines and then the text. -/
def writeHeader (old : Option String) (text : String) : String :=
  match old with
  | none => text
  | some content => content ++ "\n\n\n" ++ text

/-- Contents of the three report files; `none` = the file does not exist. -/
structure ReportFS where
  table : Option String
  list_sorted : Option String
  table_sorted : Option String
deriving DecidableEq, Repr

/-- `find_files` (lines 167-213) without the path-resolution preamble
(working-directory and `abspath` handling is out of scope): write the primary
header, walk, then - when `sort_info` is set and the walk succeeded - write
the two sorted headers (the list header is `starting_text[:-67] + '\n\n'`,
dropping the legend and the newline before it) and run `_sorter`.  Returns
the final report contents and the match count, or the propagated walk
exception with whatever was already written. -/
def find_files (cfg : Config) (now : PyDateTime) (entries : List FileEntry)
    (fs : ReportFS) : ReportFS × Except String Nat :=
  let stx := startingText now cfg.start_date cfg.end_date
  let table1 := writeHeader fs.table stx
  let res := walker cfg entries
  let table2 := table1 ++ String.join res.2.1
  match res.2.2 with
  | some m => ({ fs with table := some table2 }, .error m)
  | none =>
    if cfg.sort_info then
      let listHeader := writeHeader fs.list_sorted (stx.dropRight 67 ++ "\n\n")
      let tableHeader := writeHeader fs.table_sorted stx
      let sorted := sorter listHeader tableHeader
        ((res.1.2).getD [])
      ({ table := some table2, list_sorted := some sorted.1,
         table_sorted := some sorted.2 }, .ok res.1.1)
    else ({ fs with table := some table2 }, .ok res.1.1)

/-- One whole invocation: construct the finder, then run `find_files`.  A
configuration error (`ValueError` in `__init__`) happens before `find_files`
is ever called, so the report files are untouched in that case. -/
def runFinder (start_date end_date : Option PyStr) (include_time : Bool)
    (extensions : Option (List PyStr)) (sort_info : Bool) (now : PyDateTime)
    (entries : List FileEntry) (fs : ReportFS) :
    ReportFS × Except String Nat :=
  match mkFinder start_date end_date include_time extensions sort_info now with
  | .error m => (fs, .error m)
  | .ok cfg => find_files cfg now entries fs

/-! ### Helper lemmas -/

lemma lowerChar_eq_dot (c : Nat) : lowerChar c = 46 ↔ c = 46 := by
  unfold lowerChar
  split <;> omega

lemma lowerChar_idem (c : Nat) : lowerChar (lowerChar c) = lowerChar c := by
  by_cases h : 65 ≤ c ∧ c ≤ 90
  · have h2 : ¬ (65 ≤ c + 32 ∧ c + 32 ≤ 90) := by omega
    simp [lowerChar, h, h2]
    omega
  · simp [lowerChar, h]

lemma startsWithDot_lowerStr (s : PyStr) :
    startsWithDot (lowerStr s) = startsWithDot s := by
  cases s with
  | nil => rfl
  | cons c cs =>
    simp only [lowerStr, List.map_cons, startsWithDot]
    cases h : decide (c = 46) with
    | true =>
      have hc : c = 46 := of_decide_eq_true h
      subst hc
      rfl
    | false =>
      have hc : ¬ c = 46 := of_decide_eq_false h
      have h1 : ¬ lowerChar c = 46 := fun h2 => hc ((lowerChar_eq_dot c).mp h2)
      simp [hc, h1]

lemma lowerStr_idem (s : PyStr) : lowerStr (lowerStr s) = lowerStr s := by
  simp only [lowerStr, List.map_map]
  exact List.map_congr_left fun c _ => lowerChar_idem c

lemma normalizeExt_ne_nil (s : PyStr) : normalizeExt s ≠ [] := by
  unfold normalizeExt
  split
  · next h =>
    cases s with
    | nil => cases h
    | cons c cs => simp [lowerStr]
  · simp

lemma recordLE_trans (a b c : Record) (hab : recordLE a b = true)
    (hbc : recordLE b c = true) : recordLE a c = true := by
  simp only [recordLE, decide_eq_true_iff] at *
  exact le_trans hab hbc

lemma recordLE_total (a b : Record) : (recordLE a b || recordLE b a) = true := by
  simp only [recordLE, Bool.or_eq_true, decide_eq_true_iff]
  exact le_total _ _

/-- The ordering the spec describes for the sorted reports: creation time
first, then modification time, then access time, then path, ascending. -/
def keyLE (r s : Record) : Prop :=
  r.ctime < s.ctime ∨ (r.ctime = s.ctime ∧
    (r.mtime < s.mtime ∨ (r.mtime = s.mtime ∧
      (r.atime < s.atime ∨ (r.atime = s.atime ∧ r.path ≤ s.path)))))

lemma recordLE_iff (r s : Record) : recordLE r s = true ↔ keyLE r s := by
  simp [recordLE, sortKey, Prod.Lex.le_iff, keyLE]

lemma dateMatches_iff (lo hi : Int) (e : FileEntry) :
    dateMatches lo hi e = true ↔
      ((lo < e.mtime ∧ e.mtime < hi) ∨ (lo < e.ctime ∧ e.ctime < hi) ∨
        (lo < e.atime ∧ e.atime < hi)) := by
  simp [dateMatches, or_assoc]

lemma stepFile_ok_cases (cfg : Config) (lo hi : Int) (st st' : WalkState)
    (e : FileEntry) (h : stepFile cfg lo hi st e = .ok st') :
    st' = st ∨ st' = recordMatch cfg st e := by
  unfold stepFile at h
  split at h
  · exact Or.inl (Except.ok.inj h).symm
  · split at h
    · cases h
    · split at h
      · exact Or.inl (Except.ok.inj h).symm
      · split at h
        · exact Or.inr (Except.ok.inj h).symm
        · exact Or.inl (Except.ok.inj h).symm

/-! ### Claim theorems -/

/-- C1: for every file inspected during traversal (it still exists and passes
the extension filter), the walk counts and reports it if and only if at least
one of its three timestamps lies strictly between the window bounds; when no
timestamp is strictly inside - in particular when the only candidate
timestamps sit exactly on a bound - the state is unchanged and nothing is
reported. -/
theorem match_iff_timestamp_strictly_inside (cfg : Config) (lo hi : Int)
    (st : WalkState) (e : FileEntry) (exts : List PyStr)
    (hex : e.exists_now = true) (hexts : cfg.extensions = some exts)
    (hpass : exts.isEmpty = true ∨ e.ext ∈ exts) :
    ∃ st', stepFile cfg lo hi st e = .ok st' ∧
      ((st'.files_founded = st.files_founded + 1 ∧
        st'.report = st.report ++ [renderLine e.toRecord]) ↔
        ((lo < e.mtime ∧ e.mtime < hi) ∨ (lo < e.ctime ∧ e.ctime < hi) ∨
          (lo < e.atime ∧ e.atime < hi))) ∧
      (¬ ((lo < e.mtime ∧ e.mtime < hi) ∨ (lo < e.ctime ∧ e.ctime < hi) ∨
          (lo < e.atime ∧ e.atime < hi)) → st' = st) := by
  have hskip : (!exts.isEmpty && !(decide (e.ext ∈ exts))) = false := by
    rcases hpass with h | h
    · simp [h]
    · simp [h]
  by_cases hd : dateMatches lo hi e = true
  · refine ⟨recordMatch cfg st e, ?_, ?_, ?_⟩
    · simp [stepFile, hex, hexts, hskip, hd]
    · constructor
      · intro _
        exact (dateMatches_iff lo hi e).mp hd
      · intro _
        exact ⟨rfl, rfl⟩
    · intro hn
      exact absurd ((dateMatches_iff lo hi e).mp hd) hn
  · have hd' : dateMatches lo hi e = false := by
      simpa using hd
    refine ⟨st, ?_, ?_, fun _ => rfl⟩
    · simp [stepFile, hex, hexts, hskip, hd']
    · constructor
      · rintro ⟨h1, -⟩
        omega
      · intro h
        exact absurd ((dateMatches_iff lo hi e).mpr h) hd

/-- C1 witness: a concrete instantiation - window (0, 10), an existing file
with extension in the filter and modification time 5. -/
theorem match_iff_timestamp_strictly_inside_witness :
    ∃ st', stepFile
        { start_date := { day := 0, hour := 0, minute := 0, second := 0,
                          microsecond := 0 },
          end_date := { day := 0, hour := 0, minute := 0, second := 0,
                        microsecond := 0 },
          sort_info := false, extensions := some [[46, 116]] }
        0 10 { files_founded := 0, files_list := [], report := [] }
        { path := "a", exists_now := true, ext := [46, 116], mtime := 5,
          ctime := 20, atime := 30 } = .ok st' ∧
      ((st'.files_founded = 0 + 1 ∧
        st'.report = [] ++ [renderLine
          (FileEntry.toRecord
            { path := "a", exists_now := true, ext := [46, 116], mtime := 5,
              ctime := 20, atime := 30 })]) ↔
        (((0 : Int) < 5 ∧ (5 : Int) < 10) ∨ ((0 : Int) < 20 ∧ (20 : Int) < 10) ∨
          ((0 : Int) < 30 ∧ (30 : Int) < 10))) ∧
      (¬ (((0 : Int) < 5 ∧ (5 : Int) < 10) ∨ ((0 : Int) < 20 ∧ (20 : Int) < 10) ∨
          ((0 : Int) < 30 ∧ (30 : Int) < 10)) → st' =
        { files_founded := 0, files_list := [], report := [] }) :=
  match_iff_timestamp_strictly_inside _ 0 10 _ _ [[46, 116]] rfl rfl
    (Or.inr (by decide))

/-- C2: contrary to the claim (and to the class docstring), an absent or
empty extension filter does not make the run match everything: `__init__`
only assigns `self._extensions` under `if extensions:`, so `_walker` line 129
raises `AttributeError` at the first file it inspects.  Evaluated here on a
default-configured finder over a directory holding one existing file. -/
theorem absent_extensions_crashes_walk :
    (runFinder none none false none false
        { day := 19000, hour := 12, minute := 30, second := 30,
          microsecond := 0 }
        [{ path := "a.txt", exists_now := true, ext := [46, 116, 120, 116],
           mtime := 5, ctime := 5, atime := 5 }]
        { table := none, list_sorted := none, table_sorted := none }).2 =
      Except.error "AttributeError: _extensions" := by
  rfl

/-- C3: contrary to the claim, the sorted table report does not keep the
primary report's field-to-timestamp correspondence: `_sorter` lines 156-159
render `i[2]` (the creation time) under the `mtime=` label and `i[1]` (the
modification time) under the `ctime=` label.  Shown on the record with
path `a`, mtime 1, ctime 2, atime 3, against the correctly-labelled primary
line for the same record. -/
theorem sorted_table_swaps_time_labels :
    sorterTableLine { path := "a", mtime := 1, ctime := 2, atime := 3 } =
      "file=a   |   mtime=" ++ pyCtime 2 ++ "   |   ctime=" ++ pyCtime 1 ++
        "   |   atime=" ++ pyCtime 3 ∧
    sorterTableLine { path := "a", mtime := 1, ctime := 2, atime := 3 } ≠
      "file=a   |   mtime=" ++ pyCtime 1 ++ "   |   ctime=" ++ pyCtime 2 ++
        "   |   atime=" ++ pyCtime 3 ∧
    renderLine { path := "a", mtime := 1, ctime := 2, atime := 3 } =
      "file=a | mtime=" ++ pyCtime 1 ++ " | ctime=" ++ pyCtime 2 ++
        " | atime=" ++ pyCtime 3 ++ "\n" := by
  refine ⟨rfl, ?_, rfl⟩
  decide

/-- C4 counterexample: with `include_time = False` (the default) and no end
date, `__init__` line 102-104 pads the default upper bound to 23:59:59 of
today, so it is not `now`: at `now` = day 19000, 12:30:30 the stored end
date is day 19000, 23:59:59. -/
theorem default_upper_bound_not_now :
    (mkFinder none none false none false
        { day := 19000, hour := 12, minute := 30, second := 30,
          microsecond := 0 }).toOption.map Config.end_date =
      some { day := 19000, hour := 23, minute := 59, second := 59,
             microsecond := 0 } ∧
    ({ day := 19000, hour := 23, minute := 59, second := 59,
       microsecond := 0 } : PyDateTime) ≠
      { day := 19000, hour := 12, minute := 30, second := 30,
        microsecond := 0 } := by
  exact ⟨rfl, by decide⟩

/-- C4 amended: in every configuration in which the respective bound is
absent - the other bound supplied or not, each `include_time`, filter and
sorting choice - an omitted lower bound defaults to `now` minus 7 days
truncated to midnight, while an omitted upper bound defaults to `now` only
when `include_time = True`; with `include_time = False` it is `now` with the
time of day replaced by 23:59:59 (microseconds kept).  When both bounds are
absent, construction always succeeds with exactly those two defaults. -/
theorem default_bounds (start_date end_date : Option PyStr)
    (include_time sort_info : Bool) (extensions : Option (List PyStr))
    (now : PyDateTime) :
    (∀ cfg, mkFinder start_date end_date include_time extensions sort_info
        now = .ok cfg →
      (truthy start_date = false →
        cfg.start_date = { day := now.day - 7, hour := 0, minute := 0,
                           second := 0, microsecond := 0 }) ∧
      (truthy end_date = false →
        cfg.end_date = (if include_time then now
          else { now with hour := 23, minute := 59, second := 59 }))) ∧
    (truthy start_date = false → truthy end_date = false →
      mkFinder start_date end_date include_time extensions sort_info now =
        .ok { start_date := { day := now.day - 7, hour := 0, minute := 0,
                              second := 0, microsecond := 0 },
              end_date := (if include_time then now
                else { now with hour := 23, minute := 59, second := 59 }),
              sort_info := sort_info,
              extensions := mkExtensions extensions }) := by
  constructor
  · intro cfg h
    by_cases hts : truthy start_date = true
    · cases hps : strptime (start_date.getD []) include_time with
      | none =>
        simp only [mkFinder, hts, hps, if_true] at h
        cases h
      | some d =>
        by_cases hte : truthy end_date = true
        · cases hpe : strptime (end_date.getD []) include_time with
          | none =>
            simp only [mkFinder, hts, hps, hte, hpe, if_true] at h
            cases h
          | some d2 =>
            refine ⟨fun hs => ?_, fun he => ?_⟩
            · rw [hs] at hts
              cases hts
            · rw [he] at hte
              cases hte
        · have hte' : truthy end_date = false := by
            rwa [Bool.not_eq_true] at hte
          simp only [mkFinder, hts, hps, hte', if_true, Bool.false_eq_true,
            if_false, Except.ok.injEq] at h
          refine ⟨fun hs => ?_, fun _ => ?_⟩
          · rw [hs] at hts
            cases hts
          · rw [← h]
    · have hts' : truthy start_date = false := by
        rwa [Bool.not_eq_true] at hts
      by_cases hte : truthy end_date = true
      · cases hpe : strptime (end_date.getD []) include_time with
        | none =>
          simp only [mkFinder, hts', hte, hpe, Bool.false_eq_true, if_false,
            if_true] at h
          cases h
        | some d2 =>
          simp only [mkFinder, hts', hte, hpe, Bool.false_eq_true, if_false,
            if_true, Except.ok.injEq] at h
          refine ⟨fun _ => ?_, fun he => ?_⟩
          · rw [← h]
          · rw [he] at hte
            cases hte
      · have hte' : truthy end_date = false := by
          rwa [Bool.not_eq_true] at hte
        simp only [mkFinder, hts', hte', Bool.false_eq_true, if_false,
          Except.ok.injEq] at h
        exact ⟨fun _ => by rw [← h], fun _ => by rw [← h]⟩
  · intro hs he
    simp only [mkFinder, hs, he, Bool.false_eq_true, if_false]

/-- C4 amended witness: the two mixed configurations at a concrete `now`
(day 19000, 12:30:30.000007): start omitted with end supplied gives the
midnight-truncated lower default; start supplied with end omitted gives the
23:59:59-padded upper default. -/
theorem default_bounds_witness :
    ({ start_date := { day := 18993, hour := 0, minute := 0, second := 0,
                       microsecond := 0 },
       end_date := { day := 19006, hour := 23, minute := 59, second := 59,
                     microsecond := 0 },
       sort_info := false, extensions := none } : Config).start_date =
      { day := 18993, hour := 0, minute := 0, second := 0,
        microsecond := 0 } ∧
    ({ start_date := { day := 19006, hour := 0, minute := 0, second := 0,
                       microsecond := 0 },
       end_date := { day := 19000, hour := 23, minute := 59, second := 59,
                     microsecond := 7 },
       sort_info := false, extensions := none } : Config).end_date =
      { day := 19000, hour := 23, minute := 59, second := 59,
        microsecond := 7 } :=
  ⟨((default_bounds none (some [50, 48, 50, 50, 45, 48, 49, 45, 49, 52])
      false false none
      { day := 19000, hour := 12, minute := 30, second := 30,
        microsecond := 7 }).1
      { start_date := { day := 18993, hour := 0, minute := 0, second := 0,
                        microsecond := 0 },
        end_date := { day := 19006, hour := 23, minute := 59, second := 59,
                      microsecond := 0 },
        sort_info := false, extensions := none } rfl).1 rfl,
   ((default_bounds (some [50, 48, 50, 50, 45, 48, 49, 45, 49, 52]) none
      false false none
      { day := 19000, hour := 12, minute := 30, second := 30,
        microsecond := 7 }).1
      { start_date := { day := 19006, hour := 0, minute := 0, second := 0,
                        microsecond := 0 },
        end_date := { day := 19000, hour := 23, minute := 59, second := 59,
                      microsecond := 7 },
        sort_info := false, extensions := none } rfl).2 rfl⟩

/-- C5: the sorter orders the accumulated records ascending by creation
time, then modification time, then access time, then path, and the two
sorted reports render the records in exactly that order. -/
theorem sorter_orders_by_ctime_mtime_atime_path (l : List Record)
    (list_file table_file : String) :
    List.Perm (sortFilesList l) l ∧
    List.Pairwise keyLE (sortFilesList l) ∧
    (sorter list_file table_file l).1 =
      list_file ++
        String.intercalate "\n" ((sortFilesList l).map sorterListLine) ++
        "\n\n" ∧
    (sorter list_file table_file l).2 =
      table_file ++
        String.intercalate "\n" ((sortFilesList l).map sorterTableLine) := by
  refine ⟨List.mergeSort_perm l recordLE, ?_, rfl, rfl⟩
  have h := @List.sorted_mergeSort Record recordLE recordLE_trans
    recordLE_total l
  exact h.imp fun hab => (recordLE_iff _ _).mp hab

lemma find_files_table_content (cfg : Config) (now : PyDateTime)
    (entries : List FileEntry) (fs : ReportFS) :
    (find_files cfg now entries fs).1.table =
      some (writeHeader fs.table
          (startingText now cfg.start_date cfg.end_date) ++
        String.join (walker cfg entries).2.1) := by
  unfold find_files
  cases hw : (walker cfg entries).2.2 with
  | some m => simp [hw]
  | none => cases hs : cfg.sort_info <;> simp [hw, hs]

lemma find_files_sorted_content (cfg : Config) (now : PyDateTime)
    (entries : List FileEntry) (fs : ReportFS)
    (hs : cfg.sort_info = true) (he : (walker cfg entries).2.2 = none) :
    (find_files cfg now entries fs).1.list_sorted =
      some ((sorter
        (writeHeader fs.list_sorted
          ((startingText now cfg.start_date cfg.end_date).dropRight 67 ++
            "\n\n"))
        (writeHeader fs.table_sorted
          (startingText now cfg.start_date cfg.end_date))
        (((walker cfg entries).1.2).getD [])).1) ∧
    (find_files cfg now entries fs).1.table_sorted =
      some ((sorter
        (writeHeader fs.list_sorted
          ((startingText now cfg.start_date cfg.end_date).dropRight 67 ++
            "\n\n"))
        (writeHeader fs.table_sorted
          (startingText now cfg.start_date cfg.end_date))
        (((walker cfg entries).1.2).getD [])).2) := by
  unfold find_files
  simp [he, hs]

lemma find_files_sorted_untouched (cfg : Config) (now : PyDateTime)
    (entries : List FileEntry) (fs : ReportFS)
    (h : cfg.sort_info = false ∨ (walker cfg entries).2.2 ≠ none) :
    (find_files cfg now entries fs).1.list_sorted = fs.list_sorted ∧
    (find_files cfg now entries fs).1.table_sorted = fs.table_sorted := by
  unfold find_files
  rcases h with hs | he
  · cases hw : (walker cfg entries).2.2 <;> simp [hw, hs]
  · cases hw : (walker cfg entries).2.2 with
    | some m => simp [hw]
    | none => exact absurd hw he

/-- C6: a run never truncates a report file.  For each of the three report
files: if it already holds content `c`, the run result is `c` followed by the
three-newline separator, the fresh run header, and then this run's block; if
it does not exist it is created starting with the header.  The two sorted
files are written only by a successful sorting run and are untouched
otherwise. -/
theorem reports_append_only (cfg : Config) (now : PyDateTime)
    (entries : List FileEntry) (fs : ReportFS) :
    (∀ c, fs.table = some c → ∃ body,
      (find_files cfg now entries fs).1.table =
        some (c ++ "\n\n\n" ++
          startingText now cfg.start_date cfg.end_date ++ body)) ∧
    (fs.table = none → ∃ body,
      (find_files cfg now entries fs).1.table =
        some (startingText now cfg.start_date cfg.end_date ++ body)) ∧
    (cfg.sort_info = true → (walker cfg entries).2.2 = none →
      (∀ c, fs.list_sorted = some c → ∃ body,
        (find_files cfg now entries fs).1.list_sorted =
          some (c ++ "\n\n\n" ++
            ((startingText now cfg.start_date cfg.end_date).dropRight 67 ++
              "\n\n") ++ body)) ∧
      (fs.list_sorted = none → ∃ body,
        (find_files cfg now entries fs).1.list_sorted =
          some (((startingText now cfg.start_date cfg.end_date).dropRight 67 ++
            "\n\n") ++ body)) ∧
      (∀ c, fs.table_sorted = some c → ∃ body,
        (find_files cfg now entries fs).1.table_sorted =
          some (c ++ "\n\n\n" ++
            startingText now cfg.start_date cfg.end_date ++ body)) ∧
      (fs.table_sorted = none → ∃ body,
        (find_files cfg now entries fs).1.table_sorted =
          some (startingText now cfg.start_date cfg.end_date ++ body))) ∧
    ((cfg.sort_info = false ∨ (walker cfg entries).2.2 ≠ none) →
      (find_files cfg now entries fs).1.list_sorted = fs.list_sorted ∧
      (find_files cfg now entries fs).1.table_sorted = fs.table_sorted) := by
  refine ⟨?_, ?_, ?_, find_files_sorted_untouched cfg now entries fs⟩
  · intro c hc
    refine ⟨String.join (walker cfg entries).2.1, ?_⟩
    rw [find_files_table_content, hc]
    simp [writeHeader, String.append_assoc]
  · intro hc
    refine ⟨String.join (walker cfg entries).2.1, ?_⟩
    rw [find_files_table_content, hc]
    simp [writeHeader]
  · intro hs he
    obtain ⟨hl, ht⟩ := find_files_sorted_content cfg now entries fs hs he
    refine ⟨?_, ?_, ?_, ?_⟩
    · intro c hc
      refine ⟨String.intercalate "\n"
        ((sortFilesList (((walker cfg entries).1.2).getD [])).map
          sorterListLine) ++ "\n\n", ?_⟩
      rw [hl, hc]
      simp [sorter, writeHeader, String.append_assoc]
    · intro hc
      refine ⟨String.intercalate "\n"
        ((sortFilesList (((walker cfg entries).1.2).getD [])).map
          sorterListLine) ++ "\n\n", ?_⟩
      rw [hl, hc]
      simp [sorter, writeHeader, String.append_assoc]
    · intro c hc
      refine ⟨String.intercalate "\n"
        ((sortFilesList (((walker cfg entries).1.2).getD [])).map
          sorterTableLine), ?_⟩
      rw [ht, hc]
      simp [sorter, writeHeader, String.append_assoc]
    · intro hc
      refine ⟨String.intercalate "\n"
        ((sortFilesList (((walker cfg entries).1.2).getD [])).map
          sorterTableLine), ?_⟩
      rw [ht, hc]
      simp [sorter, writeHeader, String.append_assoc]

/-- C6 witness: a run over an empty directory, with a primary report that
already holds the content `old`: the old content survives as a prefix,
followed by the separator and the fresh header. -/
theorem reports_append_only_witness :
    ∃ body,
      (find_files
        { start_date := { day := 0, hour := 0, minute := 0, second := 0,
                          microsecond := 0 },
          end_date := { day := 1, hour := 0, minute := 0, second := 0,
                        microsecond := 0 },
          sort_info := false, extensions := some [[46]] }
        { day := 2, hour := 3, minute := 4, second := 5, microsecond := 6 }
        []
        { table := some "old", list_sorted := none,
          table_sorted := none }).1.table =
      some ("old" ++ "\n\n\n" ++
        startingText
          { day := 2, hour := 3, minute := 4, second := 5, microsecond := 6 }
          { day := 0, hour := 0, minute := 0, second := 0, microsecond := 0 }
          { day := 1, hour := 0, minute := 0, second := 0, microsecond := 0 } ++
        body) :=
  (reports_append_only
    { start_date := { day := 0, hour := 0, minute := 0, second := 0,
                      microsecond := 0 },
      end_date := { day := 1, hour := 0, minute := 0, second := 0,
                    microsecond := 0 },
      sort_info := false, extensions := some [[46]] }
    { day := 2, hour := 3, minute := 4, second := 5, microsecond := 6 }
    []
    { table := some "old", list_sorted := none,
      table_sorted := none }).1 "old" rfl

lemma walkFiles_invariant (cfg : Config) (lo hi : Int)
    (entries : List FileEntry) (st : WalkState)
    (h1 : st.files_founded = st.report.length)
    (h2 : cfg.sort_info = true → st.files_list.length = st.files_founded)
    (h3 : cfg.sort_info = false → st.files_list = []) :
    (walkFiles cfg lo hi entries st).1.files_founded =
      (walkFiles cfg lo hi entries st).1.report.length ∧
    (cfg.sort_info = true →
      (walkFiles cfg lo hi entries st).1.files_list.length =
        (walkFiles cfg lo hi entries st).1.files_founded) ∧
    (cfg.sort_info = false →
      (walkFiles cfg lo hi entries st).1.files_list = []) := by
  induction entries generalizing st with
  | nil => exact ⟨h1, h2, h3⟩
  | cons e es ih =>
    simp only [walkFiles]
    cases hstep : stepFile cfg lo hi st e with
    | error m => exact ⟨h1, h2, h3⟩
    | ok st' =>
      rcases stepFile_ok_cases cfg lo hi st st' e hstep with h | h
      · rw [h]
        exact ih st h1 h2 h3
      · rw [h]
        refine ih _ ?_ ?_ ?_
        · simp [recordMatch, h1]
        · intro hs
          simp [recordMatch, hs, h2 hs]
        · intro hs
          simp [recordMatch, hs, h3 hs]

/-- C7: whenever the walk completes without an exception, it returns the
match count paired with the accumulated record list exactly when sorting was
requested (`None` otherwise), the returned list has length equal to the
count, and the count equals the number of match lines appended to the
primary report during the walk. -/
theorem walker_return_shape (cfg : Config) (entries : List FileEntry)
    (n : Nat) (lopt : Option (List Record)) (lines : List String)
    (h : walker cfg entries = ((n, lopt), lines, none)) :
    n = lines.length ∧
    (cfg.sort_info = true → ∃ l, lopt = some l ∧ l.length = n) ∧
    (cfg.sort_info = false → lopt = none) := by
  have hin := walkFiles_invariant cfg cfg.start_date.timestamp
    cfg.end_date.timestamp entries
    { files_founded := 0, files_list := [], report := [] } rfl
    (fun _ => rfl) (fun _ => rfl)
  simp only [walker, Prod.mk.injEq] at h
  obtain ⟨⟨hn, hl⟩, hr, -⟩ := h
  subst hn
  subst hr
  refine ⟨hin.1, ?_, ?_⟩
  · intro hs
    refine ⟨(walkFiles cfg cfg.start_date.timestamp cfg.end_date.timestamp
      entries { files_founded := 0, files_list := [], report := [] }).1.files_list,
      ?_, hin.2.1 hs⟩
    rw [← hl]
    simp [hs]
  · intro hs
    rw [← hl]
    simp [hs]

/-- C7 witness: one existing file with a matching extension and timestamps
inside the window, with sorting requested. -/
theorem walker_return_shape_witness :
    (1 : Nat) =
      [renderLine { path := "a", mtime := 5, ctime := 5, atime := 5 }].length ∧
    (true = true → ∃ l,
      some [({ path := "a", mtime := 5, ctime := 5, atime := 5 } : Record)] =
        some l ∧ l.length = 1) ∧
    (true = false →
      some [({ path := "a", mtime := 5, ctime := 5, atime := 5 } : Record)] =
        none) :=
  walker_return_shape
    { start_date := { day := 0, hour := 0, minute := 0, second := 0,
                      microsecond := 0 },
      end_date := { day := 1, hour := 0, minute := 0, second := 0,
                    microsecond := 0 },
      sort_info := true, extensions := some [[46]] }
    [{ path := "a", exists_now := true, ext := [46], mtime := 5, ctime := 5,
       atime := 5 }]
    1 (some [{ path := "a", mtime := 5, ctime := 5, atime := 5 }])
    [renderLine { path := "a", mtime := 5, ctime := 5, atime := 5 }]
    rfl

/-- C8: an unparseable start or end date string makes construction fail with
a `ValueError` before any traversal, and the whole invocation then leaves
every report file exactly as it was: headers are only written inside
`find_files`, which only runs on a successfully constructed finder. -/
theorem config_error_leaves_reports_untouched
    (start_date end_date : Option PyStr) (include_time sort_info : Bool)
    (extensions : Option (List PyStr)) (now : PyDateTime)
    (entries : List FileEntry) (fs : ReportFS)
    (h : (truthy start_date = true ∧
          strptime (start_date.getD []) include_time = none) ∨
         (truthy end_date = true ∧
          strptime (end_date.getD []) include_time = none)) :
    (runFinder start_date end_date include_time extensions sort_info now
      entries fs).1 = fs ∧
    ∃ m, (runFinder start_date end_date include_time extensions sort_info now
      entries fs).2 = .error m := by
  have hmk : ∃ m, mkFinder start_date end_date include_time extensions
      sort_info now = .error m := by
    unfold mkFinder
    rcases h with ⟨ht, hp⟩ | ⟨ht, hp⟩
    · simp only [ht, hp, if_true]
      exact ⟨_, rfl⟩
    · by_cases hts : truthy start_date = true
      · cases hps : strptime (start_date.getD []) include_time with
        | none =>
          simp only [hts, hps, if_true]
          exact ⟨_, rfl⟩
        | some d =>
          simp only [hts, hps, ht, hp, if_true]
          exact ⟨_, rfl⟩
      · rw [Bool.not_eq_true] at hts
        simp only [hts, ht, hp, if_true, if_false]
        exact ⟨_, rfl⟩
  obtain ⟨m, hm⟩ := hmk
  unfold runFinder
  rw [hm]
  exact ⟨rfl, m, rfl⟩

/-- C8 witness: the start date string `x` (code point 120) does not parse,
and the run leaves an existing primary report untouched. -/
theorem config_error_leaves_reports_untouched_witness :
    (runFinder (some [120]) none false none false
      { day := 19000, hour := 12, minute := 30, second := 30,
        microsecond := 0 } []
      { table := some "old", list_sorted := none, table_sorted := none }).1 =
      { table := some "old", list_sorted := none, table_sorted := none } ∧
    ∃ m, (runFinder (some [120]) none false none false
      { day := 19000, hour := 12, minute := 30, second := 30,
        microsecond := 0 } []
      { table := some "old", list_sorted := none,
        table_sorted := none }).2 = .error m :=
  config_error_leaves_reports_untouched (some [120]) none false false none
    { day := 19000, hour := 12, minute := 30, second := 30, microsecond := 0 }
    []
    { table := some "old", list_sorted := none, table_sorted := none }
    (Or.inl ⟨rfl, rfl⟩)

/-- C9 counterexample: the claim quantifies over every supplied extension
string, but prefixing a dot to a string that already starts with one changes
the stored filter: `.txt` is stored as `.txt` while `..txt` is stored as
`..txt`, so the two constructions yield different sets. -/
theorem dot_prefix_changes_dotted_extension :
    mkExtensions (some [[46, 116, 120, 116]]) =
      some [[46, 116, 120, 116]] ∧
    mkExtensions (some [[46, 46, 116, 120, 116]]) =
      some [[46, 46, 116, 120, 116]] ∧
    mkExtensions (some [[46, 116, 120, 116]]) ≠
      mkExtensions (some [[46, 46, 116, 120, 116]]) := by
  exact ⟨rfl, rfl, by decide⟩

/-- C9 amended: normalization is case-insensitive for every string, and
dot-insensitive for strings that do not already begin with a dot; every
stored entry is dot-prefixed and lowercase; lists of extensions that agree
letter-case-insensitively configure the same stored filter; in particular
`TXT` and `.txt` are equivalent. -/
theorem extension_normalization_amended :
    (∀ s t : PyStr, lowerStr s = lowerStr t →
      normalizeExt s = normalizeExt t) ∧
    (∀ s : PyStr, startsWithDot s = false →
      normalizeExt (46 :: s) = normalizeExt s) ∧
    (∀ s : PyStr, startsWithDot (normalizeExt s) = true ∧
      lowerStr (normalizeExt s) = normalizeExt s) ∧
    (∀ l1 l2 : List PyStr,
      List.Forall₂ (fun s t => lowerStr s = lowerStr t) l1 l2 →
      mkExtensions (some l1) = mkExtensions (some l2)) ∧
    normalizeExt [84, 88, 84] = normalizeExt [46, 116, 120, 116] := by
  have hcase : ∀ s t : PyStr, lowerStr s = lowerStr t →
      normalizeExt s = normalizeExt t := by
    intro s t hst
    have hdot : startsWithDot s = startsWithDot t := by
      rw [← startsWithDot_lowerStr s, ← startsWithDot_lowerStr t, hst]
    unfold normalizeExt
    rw [hdot, hst]
  refine ⟨hcase, ?_, ?_, ?_, by decide⟩
  · intro s hs
    have h46 : lowerChar 46 = 46 := by decide
    have h1 : startsWithDot (46 :: s) = true := rfl
    unfold normalizeExt
    rw [h1, hs]
    simp [lowerStr, h46]
  · intro s
    unfold normalizeExt
    by_cases hs : startsWithDot s = true
    · rw [if_pos hs]
      refine ⟨?_, lowerStr_idem s⟩
      rw [startsWithDot_lowerStr]
      exact hs
    · rw [if_neg hs]
      have h46 : lowerChar 46 = 46 := by decide
      exact ⟨rfl, by simp [lowerStr, h46, lowerStr_idem s, List.map_map,
        Function.comp, lowerChar_idem]⟩
  · intro l1 l2 hf
    have hmap : l1.map normalizeExt = l2.map normalizeExt := by
      induction hf with
      | nil => rfl
      | cons h htail ih =>
        simp only [List.map_cons]
        rw [hcase _ _ h, ih]
    have hlen : l1.isEmpty = l2.isEmpty := by
      cases hf <;> rfl
    simp only [mkExtensions, hlen, hmap]

/-- C9 amended witness: `TX` in upper case and in lower case configure the
same normalized extension. -/
theorem extension_normalization_amended_witness :
    normalizeExt [84, 88] = normalizeExt [116, 120] :=
  extension_normalization_amended.1 [84, 88] [116, 120] (by decide)

/-- C10: with a non-empty configured extension filter every stored entry is
a non-empty dot-prefixed string, so a file whose `splitext` extension is the
empty string is skipped by `_walker` line 129: the walk state - count,
record list and report lines - is unchanged by that file. -/
theorem no_extension_file_never_matches (l : List PyStr) (cfg : Config)
    (lo hi : Int) (st : WalkState) (e : FileEntry)
    (hl : l ≠ [])
    (hcfg : cfg.extensions = mkExtensions (some l))
    (hext : e.ext = []) :
    stepFile cfg lo hi st e = .ok st := by
  have hne : l.isEmpty = false := by
    cases l with
    | nil => exact absurd rfl hl
    | cons a as => rfl
  have hexts : cfg.extensions = some (l.map normalizeExt) := by
    rw [hcfg]
    simp [mkExtensions, hne]
  have hmem : e.ext ∉ l.map normalizeExt := by
    rw [hext]
    intro hmem
    obtain ⟨s, -, hs⟩ := List.mem_map.mp hmem
    exact normalizeExt_ne_nil s hs
  have hmape : (l.map normalizeExt).isEmpty = false := by
    cases l with
    | nil => exact absurd rfl hl
    | cons a as => rfl
  cases hex : e.exists_now with
  | false => simp [stepFile, hex]
  | true => simp [stepFile, hex, hexts, hmape, hmem]

/-- C10 witness: filter configured from the single extension `txt`, file
with an empty extension and timestamps inside any window. -/
theorem no_extension_file_never_matches_witness :
    stepFile
      { start_date := { day := 0, hour := 0, minute := 0, second := 0,
                        microsecond := 0 },
        end_date := { day := 1, hour := 0, minute := 0, second := 0,
                      microsecond := 0 },
        sort_info := false,
        extensions := mkExtensions (some [[116, 120, 116]]) }
      0 86400000000 { files_founded := 0, files_list := [], report := [] }
      { path := "noext", exists_now := true, ext := [], mtime := 5,
        ctime := 5, atime := 5 } =
      .ok { files_founded := 0, files_list := [], report := [] } :=
  no_extension_file_never_matches [[116, 120, 116]] _ 0 86400000000 _ _
    (by decide) rfl rfl

end FilesFinder
